import Mathlib

/-!
Shallow embedding of the order-lifecycle state machine and real-time
notification fan-out of the Humo_test_task repository.

The definitions below translate, function by function, the relevant code of
`apps/orders/models.py`, `apps/orders/services.py`,
`apps/orders/serializers/order_serializer.py`,
`apps/orders/views/order_views.py`, `apps/websocket/models.py`,
`apps/websocket/consumers.py` and `apps/utils/websocket_helpers.py`.

Conventions: Django model instances become Lean structures; foreign keys
become ids (`clientId : Nat`, `workerId : Option Nat`); the client's gender,
read through `order.client.gender`, is carried on the order as
`clientGender`; timestamps are natural numbers and `timezone.now()` is an
explicit `now` argument; Python exceptions become `Except ServiceError`;
the database order/user/notification tables become lists.
-/

namespace Humo

/-- Order status choices (`Order.Status` in `apps/orders/models.py`,
values from `ORDER_STATUSES` in `apps/utils/constants.py`). -/
inductive OrderStatus where
  | pending
  | paid
  | inProgress
  | completed
  | canceled
deriving DecidableEq, Repr

/-- User role choices (`User.Role` in `apps/users/models.py`). -/
inductive Role where
  | client
  | worker
  | admin
deriving DecidableEq, Repr

/-- Gender choices (`User.Gender` in `apps/users/models.py`). -/
inductive Gender where
  | male
  | female
deriving DecidableEq, Repr

/-- The `users.User` model, restricted to the fields the order lifecycle and
fan-out logic read (`id`, `role`, `gender`). `gender` is nullable. -/
structure User where
  id : Nat
  role : Role
  gender : Option Gender
deriving DecidableEq, Repr

/-- `User.is_client` property. -/
def User.is_client (u : User) : Bool := u.role = Role.client

/-- `User.is_worker` property. -/
def User.is_worker (u : User) : Bool := u.role = Role.worker

/-- `User.is_admin` property. -/
def User.is_admin (u : User) : Bool := u.role = Role.admin

/-- The `orders.Order` model (`apps/orders/models.py`). `clientGender` is
the value of `order.client.gender` (nullable); `workerId` is the nullable
worker foreign key; `paidAt`/`completedAt` are the nullable timestamps. -/
structure Order where
  id : Nat
  serviceName : String
  description : String
  price : Nat
  status : OrderStatus
  clientId : Nat
  clientGender : Option Gender
  workerId : Option Nat
  paidAt : Option Nat
  completedAt : Option Nat
deriving DecidableEq, Repr

/-- `Order._is_valid_status_transition` (`apps/orders/models.py`): the
`valid_transitions` dictionary, with `dict.get(old_status, [])` making the
lookup total. -/
def Order.is_valid_status_transition (old_status new_status : OrderStatus) : Bool :=
  let targets : List OrderStatus :=
    match old_status with
    | OrderStatus.pending => [OrderStatus.paid, OrderStatus.canceled]
    | OrderStatus.paid => [OrderStatus.inProgress, OrderStatus.canceled]
    | OrderStatus.inProgress => [OrderStatus.completed, OrderStatus.canceled]
    | OrderStatus.completed => []
    | OrderStatus.canceled => []
  targets.contains new_status

/-- The six legal edges of the status graph, as listed in the spec. -/
def legalEdges : List (OrderStatus × OrderStatus) :=
  [ (OrderStatus.pending, OrderStatus.paid)
  , (OrderStatus.pending, OrderStatus.canceled)
  , (OrderStatus.paid, OrderStatus.inProgress)
  , (OrderStatus.paid, OrderStatus.canceled)
  , (OrderStatus.inProgress, OrderStatus.completed)
  , (OrderStatus.inProgress, OrderStatus.canceled) ]

/-- `Order.save` (`apps/orders/models.py`): when the row already exists and
the status differs from the stored one, stamp `paid_at` on first entry into
Paid, else stamp `completed_at` on first entry into Completed (an
`if`/`elif` chain, each guarded by the field still being null), then
persist. `oldStatus` is the status of the re-fetched `old_instance`. -/
def Order.save (oldStatus : OrderStatus) (o : Order) (now : Nat) : Order :=
  if oldStatus ≠ o.status then
    if o.status = OrderStatus.paid ∧ o.paidAt = none then
      { o with paidAt := some now }
    else if o.status = OrderStatus.completed ∧ o.completedAt = none then
      { o with completedAt := some now }
    else o
  else o

/-- `Order.is_pending` property. -/
def Order.is_pending (o : Order) : Bool := o.status = OrderStatus.pending

/-- `Order.is_paid` property. -/
def Order.is_paid (o : Order) : Bool := o.status = OrderStatus.paid

/-- `Order.can_be_paid` property. -/
def Order.can_be_paid (o : Order) : Bool := o.status = OrderStatus.pending

/-- `Order.can_be_assigned` property (`status == PAID and not self.worker`). -/
def Order.can_be_assigned (o : Order) : Bool :=
  o.status = OrderStatus.paid ∧ o.workerId = none

/-- `Order.can_be_started` property (`status == PAID and self.worker`). -/
def Order.can_be_started (o : Order) : Bool :=
  o.status = OrderStatus.paid ∧ o.workerId ≠ none

/-- `Order.can_be_completed` property (`status == IN_PROGRESS and self.worker`). -/
def Order.can_be_completed (o : Order) : Bool :=
  o.status = OrderStatus.inProgress ∧ o.workerId ≠ none

/-- `Order.can_be_canceled` property. -/
def Order.can_be_canceled (o : Order) : Bool :=
  o.status = OrderStatus.pending ∨ o.status = OrderStatus.paid ∨
    o.status = OrderStatus.inProgress

/-- `Order.assign_worker` (`apps/orders/models.py`): returns false unless
`can_be_assigned` and the worker's role is Worker; on success sets the
worker and saves. -/
def Order.assign_worker (o : Order) (w : User) (now : Nat) : Bool × Order :=
  if ¬ o.can_be_assigned then (false, o)
  else if w.role ≠ Role.worker then (false, o)
  else (true, Order.save o.status { o with workerId := some w.id } now)

/-- `Order.start_work` (`apps/orders/models.py`). -/
def Order.start_work (o : Order) (now : Nat) : Bool × Order :=
  if ¬ o.can_be_started then (false, o)
  else (true, Order.save o.status { o with status := OrderStatus.inProgress } now)

/-- `Order.complete_order` (`apps/orders/models.py`). -/
def Order.complete_order (o : Order) (now : Nat) : Bool × Order :=
  if ¬ o.can_be_completed then (false, o)
  else (true, Order.save o.status { o with status := OrderStatus.completed } now)

/-- `Order.cancel_order` (`apps/orders/models.py`). -/
def Order.cancel_order (o : Order) (now : Nat) : Bool × Order :=
  if ¬ o.can_be_canceled then (false, o)
  else (true, Order.save o.status { o with status := OrderStatus.canceled } now)

/-- The exception taxonomy of `apps/utils/exceptions.py`, as far as the
order services raise it. -/
inductive ServiceError where
  | orderNotFound
  | insufficientPermissions
  | invalidOrderStatus
  | paymentProcessing
deriving DecidableEq, Repr

/-- `OrderService._can_user_view_order` (`apps/orders/services.py`). -/
def OrderService.can_user_view_order (u : User) (o : Order) : Bool :=
  if u.is_admin then true
  else if u.is_client ∧ o.clientId = u.id then true
  else if u.is_worker ∧ o.clientGender = u.gender then true
  else false

/-- `OrderService._can_user_update_order` (`apps/orders/services.py`). -/
def OrderService.can_user_update_order (u : User) (o : Order) : Bool :=
  if u.is_admin then true
  else if u.is_worker ∧ o.workerId = some u.id then true
  else false

/-- `OrderService._can_user_manage_order` (`apps/orders/services.py`). -/
def OrderService.can_user_manage_order (u : User) (o : Order) : Bool :=
  if u.is_admin then true
  else if u.is_worker ∧ o.clientGender = u.gender then true
  else false

/-- `OrderService._can_user_cancel_order` (`apps/orders/services.py`). -/
def OrderService.can_user_cancel_order (u : User) (o : Order) : Bool :=
  if u.is_admin then true
  else if u.is_client ∧ o.clientId = u.id ∧ o.is_pending then true
  else if u.is_worker ∧ o.workerId = some u.id ∧ o.status = OrderStatus.inProgress
    then true
  else false

/-- `OrderService.get_order_by_id` (`apps/orders/services.py`): look the
order up in the store, raise `OrderNotFoundError` when absent,
`InsufficientPermissionsError` when the user cannot view it. -/
def OrderService.get_order_by_id (orders : List Order) (oid : Nat) (u : User) :
    Except ServiceError Order :=
  match orders.find? (fun o => o.id = oid) with
  | none => Except.error ServiceError.orderNotFound
  | some o =>
      if ¬ OrderService.can_user_view_order u o then
        Except.error ServiceError.insufficientPermissions
      else Except.ok o

/-- `OrderService.update_order_status` (`apps/orders/services.py`):
permission check, transition check against `_is_valid_status_transition`
(a `None` requested status is never in a target list, hence invalid),
then `setattr` of the known kwargs — of the serializer's fields only
`worker_id` is an `Order` attribute (`reason` is not, `status` is
overwritten right after) — then `order.status = new_status` and
`order.save()`. -/
def OrderService.update_order_status (o : Order) (new_status : Option OrderStatus)
    (u : User) (kwWorkerId : Option Nat) (now : Nat) : Except ServiceError Order :=
  if ¬ OrderService.can_user_update_order u o then
    Except.error ServiceError.insufficientPermissions
  else
    match new_status with
    | none => Except.error ServiceError.invalidOrderStatus
    | some s =>
        if ¬ Order.is_valid_status_transition o.status s then
          Except.error ServiceError.invalidOrderStatus
        else
          let o1 := match kwWorkerId with
            | none => o
            | some wid => { o with workerId := some wid }
          Except.ok (Order.save o.status { o1 with status := s } now)

/-- `OrderService.assign_worker_to_order` (`apps/orders/services.py`). -/
def OrderService.assign_worker_to_order (o : Order) (w : User) (u : User)
    (now : Nat) : Except ServiceError (Bool × Order) :=
  if ¬ OrderService.can_user_manage_order u o then
    Except.error ServiceError.insufficientPermissions
  else if ¬ w.is_worker then
    Except.error ServiceError.insufficientPermissions
  else Except.ok (o.assign_worker w now)

/-- `OrderService.start_order_work` (`apps/orders/services.py`). -/
def OrderService.start_order_work (o : Order) (u : User) (now : Nat) :
    Except ServiceError (Bool × Order) :=
  if ¬ OrderService.can_user_manage_order u o then
    Except.error ServiceError.insufficientPermissions
  else if o.workerId ≠ some u.id then
    Except.error ServiceError.insufficientPermissions
  else Except.ok (o.start_work now)

/-- `OrderService.complete_order` (`apps/orders/services.py`): a manage
permission check and an assigned-worker check, both raising
`InsufficientPermissionsError`, then the model-level `Order.complete_order`
returning a boolean. -/
def OrderService.complete_order (o : Order) (u : User) (now : Nat) :
    Except ServiceError (Bool × Order) :=
  if ¬ OrderService.can_user_manage_order u o then
    Except.error ServiceError.insufficientPermissions
  else if o.workerId ≠ some u.id then
    Except.error ServiceError.insufficientPermissions
  else Except.ok (o.complete_order now)

/-- `OrderService.cancel_order` (`apps/orders/services.py`). -/
def OrderService.cancel_order (o : Order) (u : User) (now : Nat) :
    Except ServiceError (Bool × Order) :=
  if ¬ OrderService.can_user_cancel_order u o then
    Except.error ServiceError.insufficientPermissions
  else Except.ok (o.cancel_order now)

/-- `PaymentService.process_payment` (`apps/orders/services.py`): raises
`PaymentProcessingError` unless `can_be_paid`; on success sets status Paid
and `paid_at = now`, on failure sets status Canceled; then saves. -/
def PaymentService.process_payment (o : Order) (success : Bool) (now : Nat) :
    Except ServiceError Order :=
  if ¬ o.can_be_paid then Except.error ServiceError.paymentProcessing
  else if success then
    Except.ok (Order.save o.status
      { o with status := OrderStatus.paid, paidAt := some now } now)
  else
    Except.ok (Order.save o.status { o with status := OrderStatus.canceled } now)

/-- `PaymentService.refund_payment` (`apps/orders/services.py`). -/
def PaymentService.refund_payment (o : Order) (u : User) (now : Nat) :
    Except ServiceError Order :=
  if ¬ u.is_admin ∧ o.clientId ≠ u.id then
    Except.error ServiceError.insufficientPermissions
  else if ¬ o.is_paid then Except.error ServiceError.paymentProcessing
  else Except.ok (Order.save o.status { o with status := OrderStatus.canceled } now)

/-- A validated status-change request body
(`OrderStatusUpdateSerializer` fields: optional `status`, optional
`worker_id`, optional `reason`). -/
structure StatusUpdateRequest where
  status : Option OrderStatus
  workerId : Option Nat
  reason : Option String
deriving DecidableEq, Repr

/-- `User.objects.get(id=worker_id, role=User.Role.WORKER)` as used by the
serializer and the views: the first user with that id and the Worker role. -/
def findWorker (users : List User) (wid : Nat) : Option User :=
  users.find? (fun w => w.id = wid ∧ w.role = Role.worker)

/-- `OrderStatusUpdateSerializer.validate`
(`apps/orders/serializers/order_serializer.py`): `true` when validation
passes, `false` when a `ValidationError` is raised (missing status and
worker, unknown worker, worker/client gender mismatch, or an illegal
transition for a genuinely new status). -/
def OrderStatusUpdateSerializer.validate (users : List User) (o : Order)
    (r : StatusUpdateRequest) : Bool :=
  match r.status with
  | none =>
      match r.workerId with
      | none => false
      | some wid =>
          match findWorker users wid with
          | none => false
          | some w => w.gender = o.clientGender
  | some s =>
      if s = o.status then
        match r.workerId with
        | none => true
        | some wid =>
            match findWorker users wid with
            | none => false
            | some w => w.gender = o.clientGender
      else if ¬ Order.is_valid_status_transition o.status s then false
      else
        match r.workerId with
        | none => true
        | some wid =>
            if s = OrderStatus.paid then
              match findWorker users wid with
              | none => false
              | some w => w.gender = o.clientGender
            else true

/-- The responses `OrderStatusUpdateView.update` /
`OrderDetailView.destroy` can produce: a 200 carrying the serialized
order, a 204, or the 400/403/404 error classes. -/
inductive HandlerResult where
  | okOrder (o : Order)
  | noContent
  | badRequest
  | forbidden
  | notFound
deriving DecidableEq, Repr

/-- `OrderStatusUpdateView.update` (`apps/orders/views/order_views.py`):
fetch with permission check, serializer validation, then either the
documented no-op branch when the requested status equals the current one
(optionally assigning a worker), or `OrderService.update_order_status`
followed by a worker assignment when the updated order is Paid. A Python
`new_status == order.status` comparison with `new_status = None` is false,
so the no-op branch fires exactly when `r.status = some o.status`. -/
def OrderStatusUpdateView.update (users : List User) (orders : List Order)
    (oid : Nat) (u : User) (r : StatusUpdateRequest) (now : Nat) : HandlerResult :=
  match OrderService.get_order_by_id orders oid u with
  | Except.error ServiceError.orderNotFound => HandlerResult.notFound
  | Except.error _ => HandlerResult.forbidden
  | Except.ok o =>
      if ¬ OrderStatusUpdateSerializer.validate users o r then HandlerResult.badRequest
      else if r.status = some o.status then
        match r.workerId with
        | some wid =>
            match findWorker users wid with
            | none => HandlerResult.badRequest
            | some w =>
                match OrderService.assign_worker_to_order o w u now with
                | Except.error _ => HandlerResult.forbidden
                | Except.ok (_, o1) => HandlerResult.okOrder o1
        | none => HandlerResult.okOrder o
      else
        match OrderService.update_order_status o r.status u r.workerId now with
        | Except.error ServiceError.insufficientPermissions => HandlerResult.forbidden
        | Except.error _ => HandlerResult.badRequest
        | Except.ok o1 =>
            match r.workerId with
            | some wid =>
                if o1.status = OrderStatus.paid then
                  match findWorker users wid with
                  | none => HandlerResult.badRequest
                  | some w =>
                      match OrderService.assign_worker_to_order o1 w u now with
                      | Except.error _ => HandlerResult.forbidden
                      | Except.ok (_, o2) => HandlerResult.okOrder o2
                else HandlerResult.okOrder o1
            | none => HandlerResult.okOrder o1

/-- `OrderDetailView.destroy` (`apps/orders/views/order_views.py`): fetch
with permission check; non-pending orders are rejected with a 400 and
nothing is touched; pending orders are deleted from the store. Returns the
response together with the resulting order store. -/
def OrderDetailView.destroy (orders : List Order) (oid : Nat) (u : User) :
    HandlerResult × List Order :=
  match OrderService.get_order_by_id orders oid u with
  | Except.error ServiceError.orderNotFound => (HandlerResult.notFound, orders)
  | Except.error _ => (HandlerResult.forbidden, orders)
  | Except.ok o =>
      if ¬ o.is_pending then (HandlerResult.badRequest, orders)
      else (HandlerResult.noContent, orders.filter (fun x => x.id ≠ o.id))

/-- The state-changing order operations of the service layer, used to state
lifecycle invariants over every path that saves an order. -/
inductive OrderOp where
  | updateStatus (newStatus : Option OrderStatus) (kwWorkerId : Option Nat) (u : User)
  | assignWorker (w : User) (u : User)
  | startWork (u : User)
  | complete (u : User)
  | cancel (u : User)
  | processPayment (success : Bool)
  | refund (u : User)
deriving DecidableEq, Repr

/-- Dispatch an `OrderOp` to the corresponding service function; for the
boolean-returning operations the order component is kept (on a `false`
return it is the unchanged input). -/
def OrderOp.apply : OrderOp → Order → Nat → Except ServiceError Order
  | OrderOp.updateStatus ns wid u, o, now =>
      OrderService.update_order_status o ns u wid now
  | OrderOp.assignWorker w u, o, now =>
      match OrderService.assign_worker_to_order o w u now with
      | Except.error e => Except.error e
      | Except.ok p => Except.ok p.2
  | OrderOp.startWork u, o, now =>
      match OrderService.start_order_work o u now with
      | Except.error e => Except.error e
      | Except.ok p => Except.ok p.2
  | OrderOp.complete u, o, now =>
      match OrderService.complete_order o u now with
      | Except.error e => Except.error e
      | Except.ok p => Except.ok p.2
  | OrderOp.cancel u, o, now =>
      match OrderService.cancel_order o u now with
      | Except.error e => Except.error e
      | Except.ok p => Except.ok p.2
  | OrderOp.processPayment s, o, now => PaymentService.process_payment o s now
  | OrderOp.refund u, o, now => PaymentService.refund_payment o u now

/-- The reachable-state invariant tying `paid_at` to the status: a pending
order has never been paid. It holds of freshly created orders
(status Pending, `paid_at` null) and is preserved by every operation. -/
def paidInvariant (o : Order) : Prop :=
  o.paidAt ≠ none → o.status ≠ OrderStatus.pending

/-- The once-set-never-reset property of the derived timestamps across one
operation taking `o` to `o'`: the invariant still holds, entry into Paid
(resp. Completed) leaves `paid_at` (resp. `completed_at`) non-null, and a
timestamp that was already set keeps its exact value. -/
def timestampsPreserved (o o' : Order) : Prop :=
  paidInvariant o' ∧
  (o'.status = OrderStatus.paid → o.status ≠ OrderStatus.paid →
    o'.paidAt.isSome = true) ∧
  (∀ t, o.paidAt = some t → o'.paidAt = some t) ∧
  (o'.status = OrderStatus.completed → o.status ≠ OrderStatus.completed →
    o'.completedAt.isSome = true) ∧
  (∀ t, o.completedAt = some t → o'.completedAt = some t)

/-- Notification status choices (`Notification.Status` in
`apps/websocket/models.py`). -/
inductive NotificationStatus where
  | pending
  | sent
  | read
  | failed
deriving DecidableEq, Repr

/-- The `websocket.Notification` model (`apps/websocket/models.py`),
restricted to the scalar fields (the generic related-object reference is
omitted: no claim reads it). -/
structure Notification where
  id : Nat
  typ : String
  title : String
  message : String
  recipientId : Nat
  senderId : Option Nat
  status : NotificationStatus
  priority : Nat
  createdAt : Nat
  sentAt : Option Nat
  readAt : Option Nat
deriving DecidableEq, Repr

/-- `Notification.mark_as_sent` (`apps/websocket/models.py`): sets the
status to Sent and stamps `sent_at`, with no check of the current status. -/
def Notification.mark_as_sent (n : Notification) (now : Nat) : Notification :=
  { n with status := NotificationStatus.sent, sentAt := some now }

/-- `Notification.mark_as_read` (`apps/websocket/models.py`): sets the
status to Read and stamps `read_at`, with no check of the current status. -/
def Notification.mark_as_read (n : Notification) (now : Nat) : Notification :=
  { n with status := NotificationStatus.read, readAt := some now }

/-- `Notification.mark_as_failed` (`apps/websocket/models.py`): sets the
status to Failed, with no check of the current status. -/
def Notification.mark_as_failed (n : Notification) : Notification :=
  { n with status := NotificationStatus.failed }

/-- `NotificationConsumer._mark_notification_read`
(`apps/websocket/consumers.py`): `Notification.objects.get(id=nid,
recipient=self.user)` then `mark_as_read`; `DoesNotExist` (no record with
that id *and* that recipient) returns `false` and touches nothing. Returns
the boolean and the resulting notification store. -/
def NotificationConsumer.mark_notification_read (notifs : List Notification)
    (userId : Nat) (nid : Nat) (now : Nat) : Bool × List Notification :=
  match notifs.find? (fun n => n.id = nid ∧ n.recipientId = userId) with
  | none => (false, notifs)
  | some _ =>
      (true, notifs.map (fun m =>
        if m.id = nid ∧ m.recipientId = userId then m.mark_as_read now else m))

/-- Responses of the subscribe/unsubscribe handlers
(`apps/websocket/consumers.py`). -/
inductive WsResponse where
  | subscribed (group : String)
  | unsubscribed (group : String)
  | errorMsg (msg : String)
deriving DecidableEq, Repr

/-- A channel-layer registry mutation (`group_add` / `group_discard`). -/
inductive RegistryOp where
  | add (group : String)
  | remove (group : String)
deriving DecidableEq, Repr

/-- Python's `str.startswith`. -/
def pyStartsWith (s pat : String) : Bool := pat.data.isPrefixOf s.data

/-- `BaseWebSocketConsumer._handle_subscribe` (`apps/websocket/consumers.py`):
`if group_name and group_name.startswith("user_")` then `group_add` and a
`subscribed` response, else the error response and no registry mutation.
The connection's own identity is never consulted. -/
def BaseWebSocketConsumer.handle_subscribe (group_name : Option String) :
    WsResponse × List RegistryOp :=
  match group_name with
  | some g =>
      if g ≠ "" ∧ pyStartsWith g "user_" then
        (WsResponse.subscribed g, [RegistryOp.add g])
      else (WsResponse.errorMsg "Invalid group name", [])
  | none => (WsResponse.errorMsg "Invalid group name", [])

/-- `BaseWebSocketConsumer._handle_unsubscribe`
(`apps/websocket/consumers.py`). -/
def BaseWebSocketConsumer.handle_unsubscribe (group_name : Option String) :
    WsResponse × List RegistryOp :=
  match group_name with
  | some g =>
      if g ≠ "" ∧ pyStartsWith g "user_" then
        (WsResponse.unsubscribed g, [RegistryOp.remove g])
      else (WsResponse.errorMsg "Invalid group name", [])
  | none => (WsResponse.errorMsg "Invalid group name", [])

/-- Observable effects of the fan-out dispatcher
(`apps/utils/websocket_helpers.py`): a channel-layer `group_send`, or the
durable NotificationStore writes the spec describes (`storeCreate` for a
Pending record, `storeMarkSent` for marking it Sent). The dispatcher's code
only ever produces `groupSend`. -/
inductive Effect where
  | groupSend (group : String) (event : String)
  | storeCreate (recipientId : Nat) (event : String)
  | storeMarkSent (notificationId : Nat)
deriving DecidableEq, Repr

/-- Whether an effect is a channel-layer delivery attempt. -/
def Effect.isGroupSend : Effect → Bool
  | Effect.groupSend _ _ => true
  | _ => false

/-- Whether an effect persists a NotificationRecord. -/
def Effect.isStoreCreate : Effect → Bool
  | Effect.storeCreate _ _ => true
  | _ => false

/-- `WebSocketNotifier.notify_user` (`apps/utils/websocket_helpers.py`):
one `group_send` to the group `user_<id>`. -/
def WebSocketNotifier.notify_user (userId : Nat) (event : String) : List Effect :=
  [Effect.groupSend ("user_" ++ Nat.repr userId) event]

/-- `WebSocketNotifier.notify_users` (`apps/utils/websocket_helpers.py`). -/
def WebSocketNotifier.notify_users (userIds : List Nat) (event : String) :
    List Effect :=
  userIds.flatMap (fun i => WebSocketNotifier.notify_user i event)

/-- `WebSocketNotifier.notify_workers_by_gender`
(`apps/utils/websocket_helpers.py`): the ids of users with the Worker role
and the given gender, notified one by one (the `if worker_ids:` guard
skips the call on an empty list). -/
def WebSocketNotifier.notify_workers_by_gender (users : List User)
    (gender : Option Gender) (event : String) : List Effect :=
  let workerIds :=
    (users.filter (fun u => u.role = Role.worker ∧ u.gender = gender)).map User.id
  if workerIds ≠ [] then WebSocketNotifier.notify_users workerIds event else []

/-- `WebSocketNotifier.notify_order_created`
(`apps/utils/websocket_helpers.py`): push `order_created` to the client's
group and `new_order` to each gender-matching worker's group. No
NotificationStore write appears anywhere in this path. -/
def WebSocketNotifier.notify_order_created (users : List User) (o : Order) :
    List Effect :=
  WebSocketNotifier.notify_user o.clientId "order_created" ++
    WebSocketNotifier.notify_workers_by_gender users o.clientGender "new_order"

/-- `WebSocketNotifier.notify_order_updated`
(`apps/utils/websocket_helpers.py`). -/
def WebSocketNotifier.notify_order_updated (users : List User) (o : Order)
    (old_status : OrderStatus) : List Effect :=
  if o.status ≠ old_status then
    WebSocketNotifier.notify_user o.clientId "order_updated" ++
      (if o.status = OrderStatus.inProgress ∨ o.status = OrderStatus.completed then
        WebSocketNotifier.notify_workers_by_gender users o.clientGender "order_updated"
      else [])
  else []

/-- `WebSocketNotifier.notify_payment_processed`
(`apps/utils/websocket_helpers.py`). -/
def WebSocketNotifier.notify_payment_processed (users : List User) (o : Order)
    (success : Bool) : List Effect :=
  let event := if success then "payment_success" else "payment_failed"
  WebSocketNotifier.notify_user o.clientId event ++
    WebSocketNotifier.notify_workers_by_gender users o.clientGender event

/-! Concrete inputs used by the witness and counterexample theorems. -/

/-- A concrete pending order owned by client 10. -/
def oPend : Order :=
  { id := 1, serviceName := "wash", description := "", price := 100,
    status := OrderStatus.pending, clientId := 10,
    clientGender := some Gender.female, workerId := none,
    paidAt := none, completedAt := none }

/-- The client who owns `oPend`. -/
def uClient : User := { id := 10, role := Role.client, gender := some Gender.female }

/-- The no-op request: current status, no worker assignment. -/
def rNoop : StatusUpdateRequest :=
  { status := some OrderStatus.pending, workerId := none, reason := none }

/-- A concrete paid order (id 2, paid at time 1). -/
def oPaid2 : Order :=
  { oPend with id := 2, status := OrderStatus.paid, paidAt := some 1 }

/-- `oPend` after a successful payment at time 7. -/
def oPendPaid : Order :=
  { oPend with status := OrderStatus.paid, paidAt := some 7 }

/-- A concrete in-progress order assigned to worker 1. -/
def oInProg : Order :=
  { oPend with
    id := 3
    status := OrderStatus.inProgress
    workerId := some 1
    paidAt := some 1 }

/-- The worker assigned to `oInProg`. -/
def uWorker1 : User := { id := 1, role := Role.worker, gender := some Gender.female }

/-- A different worker (id 2) whose gender matches `oInProg`'s client. -/
def uWorker2 : User := { id := 2, role := Role.worker, gender := some Gender.female }

/-- A concrete failed notification addressed to user 10. -/
def nFailed : Notification :=
  { id := 1, typ := "order_created", title := "t", message := "m",
    recipientId := 10, senderId := none,
    status := NotificationStatus.failed, priority := 1, createdAt := 0,
    sentAt := none, readAt := none }

end Humo

namespace Humo

/-- C1: the transition-legality check `Order._is_valid_status_transition`
returns true exactly on the six graph edges Pending→Paid, Pending→Canceled,
Paid→InProgress, Paid→Canceled, InProgress→Completed, InProgress→Canceled;
every other ordered pair, including every self-pair, is illegal. The check
is a total pure function by construction. -/
theorem C1_transition_table (s s' : OrderStatus) :
    Order.is_valid_status_transition s s' = true ↔ (s, s') ∈ legalEdges := by
  cases s <;> cases s' <;> decide

/-- C2: for every order in the store and every actor able to address it, a
status-change request whose requested status equals the order's current
status and which carries no worker assignment returns the order unchanged
through the 200 branch of `OrderStatusUpdateView.update`, never an error. -/
theorem C2_idempotent_noop (users : List User) (orders : List Order) (oid : Nat)
    (u : User) (r : StatusUpdateRequest) (now : Nat) (o : Order)
    (hfind : orders.find? (fun x => x.id = oid) = some o)
    (hview : OrderService.can_user_view_order u o = true)
    (hs : r.status = some o.status)
    (hw : r.workerId = none) :
    OrderStatusUpdateView.update users orders oid u r now = HandlerResult.okOrder o := by
  simp [OrderStatusUpdateView.update, OrderService.get_order_by_id, hfind, hview,
    OrderStatusUpdateSerializer.validate, hs, hw]

/-- C2 witness: the idempotent no-op evaluated on a concrete pending order
and its owning client. -/
theorem C2_idempotent_noop_witness :
    ([oPend].find? (fun x => x.id = 1) = some oPend ∧
      OrderService.can_user_view_order uClient oPend = true) ∧
    OrderStatusUpdateView.update [uClient] [oPend] 1 uClient rNoop 3 =
      HandlerResult.okOrder oPend :=
  ⟨⟨by decide, by decide⟩,
    C2_idempotent_noop [uClient] [oPend] 1 uClient rNoop 3 oPend
      (by decide) (by decide) (by decide) (by decide)⟩

/-- C8: on a Pending order (whose `paid_at` is still null),
`process_payment` with `success=false` leaves status Canceled with
`paid_at` unset, and with `success=true` leaves status Paid with `paid_at`
set to the payment time; on any non-Pending order both calls raise
`PaymentProcessingError` and change nothing. -/
theorem C8_process_payment_outcomes (o : Order) (now : Nat) :
    (o.status = OrderStatus.pending → o.paidAt = none →
      PaymentService.process_payment o false now =
        Except.ok { o with status := OrderStatus.canceled } ∧
      ({ o with status := OrderStatus.canceled } : Order).paidAt = none ∧
      PaymentService.process_payment o true now =
        Except.ok { o with status := OrderStatus.paid, paidAt := some now }) ∧
    (o.status ≠ OrderStatus.pending →
      PaymentService.process_payment o false now =
        Except.error ServiceError.paymentProcessing ∧
      PaymentService.process_payment o true now =
        Except.error ServiceError.paymentProcessing) := by
  constructor
  · intro hp hpa
    simp [PaymentService.process_payment, Order.can_be_paid, Order.save, hp, hpa]
  · intro hnp
    simp [PaymentService.process_payment, Order.can_be_paid, hnp]

/-- C8 witness: both payment outcomes on the concrete pending order
`oPend`, and the rejection on the concrete paid order `oPaid2`. -/
theorem C8_process_payment_witness :
    (oPend.status = OrderStatus.pending ∧ oPend.paidAt = none ∧
      PaymentService.process_payment oPend false 7 =
        Except.ok { oPend with status := OrderStatus.canceled } ∧
      PaymentService.process_payment oPend true 7 =
        Except.ok { oPend with status := OrderStatus.paid, paidAt := some 7 }) ∧
    (oPaid2.status ≠ OrderStatus.pending ∧
      PaymentService.process_payment oPaid2 false 7 =
        Except.error ServiceError.paymentProcessing) :=
  ⟨⟨by decide, by decide,
    ((C8_process_payment_outcomes oPend 7).1 (by decide) (by decide)).1,
    ((C8_process_payment_outcomes oPend 7).1 (by decide) (by decide)).2.2⟩,
   ⟨by decide, ((C8_process_payment_outcomes oPaid2 7).2 (by decide)).1⟩⟩

/-- C10: through the order-detail delete endpoint, an order the actor can
address is deleted only while Pending; in any other status the request is
rejected with a 400 and the order store is left unchanged. -/
theorem C10_delete_only_pending (orders : List Order) (oid : Nat) (u : User)
    (o : Order)
    (hfind : orders.find? (fun x => x.id = oid) = some o)
    (hview : OrderService.can_user_view_order u o = true) :
    (o.status ≠ OrderStatus.pending →
      OrderDetailView.destroy orders oid u = (HandlerResult.badRequest, orders)) ∧
    (o.status = OrderStatus.pending →
      OrderDetailView.destroy orders oid u =
        (HandlerResult.noContent, orders.filter (fun x => x.id ≠ o.id))) := by
  constructor <;> intro h <;>
    simp [OrderDetailView.destroy, OrderService.get_order_by_id, hfind, hview,
      Order.is_pending, h]

/-- C10 witness: deleting the paid order `oPaid2` is rejected with a 400
and the store is unchanged; deleting the pending order `oPend` succeeds. -/
theorem C10_delete_only_pending_witness :
    (oPaid2.status ≠ OrderStatus.pending ∧
      OrderDetailView.destroy [oPend, oPaid2] 2 uClient =
        (HandlerResult.badRequest, [oPend, oPaid2])) ∧
    OrderDetailView.destroy [oPend, oPaid2] 1 uClient =
      (HandlerResult.noContent, [oPend, oPaid2].filter (fun x => x.id ≠ oPend.id)) :=
  ⟨⟨by decide,
    (C10_delete_only_pending [oPend, oPaid2] 2 uClient oPaid2
      (by decide) (by decide)).1 (by decide)⟩,
   (C10_delete_only_pending [oPend, oPaid2] 1 uClient oPend
      (by decide) (by decide)).2 (by decide)⟩

/-- C4 counterexample: `oInProg` is InProgress and assigned to worker 1;
actor `uWorker2` (id 2, a worker whose gender matches the client, so the
manage check passes) is not the assigned worker, yet
`OrderService.complete_order` raises `InsufficientPermissionsError`
instead of returning false — the claim's "returns false (it does not throw
an exception)" is false on the code. -/
theorem C4_complete_counterexample :
    oInProg.status = OrderStatus.inProgress ∧
    oInProg.workerId = some 1 ∧ uWorker2.id = 2 ∧
    OrderService.can_user_manage_order uWorker2 oInProg = true ∧
    OrderService.complete_order oInProg uWorker2 9 =
      Except.error ServiceError.insufficientPermissions :=
  ⟨by decide, by decide, by decide, by decide, rfl⟩

/-- C4 as amended: when the actor is not the assigned worker (or lacks
manage permission) the Complete service raises
`InsufficientPermissionsError` — surfaced by the views as a 403 — rather
than returning false, and the order is untouched; it returns true, with
status Completed and `completed_at` stamped, exactly when the actor has
manage permission, is the assigned worker, and the order is InProgress. -/
theorem C4_complete_requires_assigned_worker (o : Order) (u : User) (now : Nat) :
    (o.workerId ≠ some u.id →
      OrderService.complete_order o u now =
        Except.error ServiceError.insufficientPermissions) ∧
    (OrderService.can_user_manage_order u o = true → o.workerId = some u.id →
      o.status = OrderStatus.inProgress →
      OrderService.complete_order o u now =
        Except.ok (true, Order.save o.status { o with status := OrderStatus.completed } now) ∧
      (Order.save o.status { o with status := OrderStatus.completed } now).status =
        OrderStatus.completed ∧
      (Order.save o.status { o with status := OrderStatus.completed } now).completedAt.isSome
        = true) ∧
    (∀ p : Bool × Order, OrderService.complete_order o u now = Except.ok p →
      p.1 = true → o.workerId = some u.id ∧ o.status = OrderStatus.inProgress) := by
  refine ⟨?_, ?_, ?_⟩
  · intro h
    unfold OrderService.complete_order
    split_ifs <;> simp_all
  · intro hm hw hs
    have hcan : o.can_be_completed = true := by
      simp [Order.can_be_completed, hs, hw]
    refine ⟨?_, ?_, ?_⟩
    · simp [OrderService.complete_order, hm, hw, Order.complete_order, hcan]
    · simp only [Order.save]
      split_ifs <;> rfl
    · rcases hc : o.completedAt with _ | t <;>
        simp [Order.save, hs, hc]
  · intro p hp hb
    unfold OrderService.complete_order Order.complete_order at hp
    split_ifs at hp with h1 h2 h3
    · have hwid : o.workerId = some u.id := by
        by_contra hne
        exact h2 hne
      simp only [Order.can_be_completed, decide_eq_true_eq] at h3
      exact ⟨hwid, h3.1⟩
    · injection hp with hp
      rw [← hp] at hb
      simp at hb

/-- C4 amended witness: the non-assigned matching worker gets the
permission error, and the assigned worker completes `oInProg`. -/
theorem C4_complete_requires_assigned_worker_witness :
    (oInProg.workerId ≠ some uWorker2.id ∧
      OrderService.complete_order oInProg uWorker2 9 =
        Except.error ServiceError.insufficientPermissions) ∧
    OrderService.complete_order oInProg uWorker1 9 =
      Except.ok (true,
        Order.save oInProg.status { oInProg with status := OrderStatus.completed } 9) :=
  ⟨⟨by decide,
    (C4_complete_requires_assigned_worker oInProg uWorker2 9).1 (by decide)⟩,
   ((C4_complete_requires_assigned_worker oInProg uWorker1 9).2.1
      (by decide) (by decide) (by decide)).1⟩

/-- `Order.save` never changes the status field. -/
theorem Order.save_stat (old : OrderStatus) (o : Order) (now : Nat) :
    (Order.save old o now).status = o.status := by
  unfold Order.save
  split_ifs <;> rfl

/-- `Order.save` keeps an already-set `paid_at` exactly. -/
theorem Order.save_paidAt_mono (old : OrderStatus) (o : Order) (now t : Nat)
    (h : o.paidAt = some t) : (Order.save old o now).paidAt = some t := by
  unfold Order.save
  split_ifs <;> simp_all

/-- `Order.save` keeps an already-set `completed_at` exactly. -/
theorem Order.save_completedAt_mono (old : OrderStatus) (o : Order) (now t : Nat)
    (h : o.completedAt = some t) : (Order.save old o now).completedAt = some t := by
  unfold Order.save
  split_ifs <;> simp_all

/-- Saving a genuine entry into Paid leaves `paid_at` non-null. -/
theorem Order.save_paid_isSome (old : OrderStatus) (o : Order) (now : Nat)
    (hs : o.status = OrderStatus.paid) (hold : old ≠ OrderStatus.paid) :
    (Order.save old o now).paidAt.isSome = true := by
  unfold Order.save
  split_ifs <;> simp_all [Option.isSome_iff_ne_none]

/-- Saving a genuine entry into Completed leaves `completed_at` non-null. -/
theorem Order.save_completed_isSome (old : OrderStatus) (o : Order) (now : Nat)
    (hs : o.status = OrderStatus.completed) (hold : old ≠ OrderStatus.completed) :
    (Order.save old o now).completedAt.isSome = true := by
  unfold Order.save
  split_ifs <;> simp_all [Option.isSome_iff_ne_none]

/-- A legal transition never targets Pending. -/
theorem valid_target_ne_pending (a b : OrderStatus)
    (h : Order.is_valid_status_transition a b = true) : b ≠ OrderStatus.pending := by
  revert h
  cases a <;> cases b <;> decide

/-- An operation that leaves the order untouched preserves the timestamps. -/
theorem timestampsPreserved_refl (o : Order) (hinv : paidInvariant o) :
    timestampsPreserved o o := by
  refine ⟨hinv, ?_, ?_, ?_, ?_⟩ <;> intro _ h <;> simp_all

/-- Saving a record that differs from `o` only outside the timestamp fields
and does not land on Pending preserves the timestamps. -/
theorem timestampsPreserved_save (o o2 : Order) (now : Nat)
    (hpa : o2.paidAt = o.paidAt) (hca : o2.completedAt = o.completedAt)
    (hnp : o2.status ≠ OrderStatus.pending) :
    timestampsPreserved o (Order.save o.status o2 now) := by
  refine ⟨?_, ?_, ?_, ?_, ?_⟩
  · intro _
    rw [Order.save_stat]
    exact hnp
  · intro hpd hop
    rw [Order.save_stat] at hpd
    exact Order.save_paid_isSome o.status o2 now hpd (by simp [hop])
  · intro t ht
    exact Order.save_paidAt_mono o.status o2 now t (hpa.trans ht)
  · intro hcd hoc
    rw [Order.save_stat] at hcd
    exact Order.save_completed_isSome o.status o2 now hcd (by simp [hoc])
  · intro t ht
    exact Order.save_completedAt_mono o.status o2 now t (hca.trans ht)

/-- C5: across every state-changing service operation, starting from an
order satisfying the reachable-state invariant, a successful run preserves
the invariant, a transition into Paid (resp. Completed) leaves `paid_at`
(resp. `completed_at`) non-null, and a timestamp that was already set is
never reset or overwritten. -/
theorem C5_timestamps_once (op : OrderOp) (o o' : Order) (now : Nat)
    (hinv : paidInvariant o) (h : OrderOp.apply op o now = Except.ok o') :
    timestampsPreserved o o' := by
  cases op with
  | updateStatus ns wid u =>
      simp only [OrderOp.apply, OrderService.update_order_status] at h
      cases ns with
      | none => split_ifs at h
      | some s =>
          by_cases h1 : OrderService.can_user_update_order u o = true
          · by_cases h2 : Order.is_valid_status_transition o.status s = true
            · cases wid with
              | none =>
                  simp [h1, h2] at h
                  subst h
                  exact timestampsPreserved_save o _ now rfl rfl
                    (valid_target_ne_pending _ _ h2)
              | some w =>
                  simp [h1, h2] at h
                  subst h
                  exact timestampsPreserved_save o _ now rfl rfl
                    (valid_target_ne_pending _ _ h2)
            · simp [h1, h2] at h
          · simp [h1] at h
  | assignWorker w u =>
      by_cases h1 : OrderService.can_user_manage_order u o = true
      · by_cases hw : w.role = Role.worker
        · by_cases h3 : o.can_be_assigned = true
          · have hpa2 : o.status = OrderStatus.paid ∧ o.workerId = none := by
              simpa [Order.can_be_assigned] using h3
            simp [OrderOp.apply, OrderService.assign_worker_to_order,
              Order.assign_worker, User.is_worker, h1, hw, h3] at h
            subst h
            exact timestampsPreserved_save o _ now rfl rfl (by simp [hpa2.1])
          · simp [OrderOp.apply, OrderService.assign_worker_to_order,
              Order.assign_worker, User.is_worker, h1, hw, h3] at h
            subst h
            exact timestampsPreserved_refl o hinv
        · simp [OrderOp.apply, OrderService.assign_worker_to_order,
            User.is_worker, h1, hw] at h
      · simp [OrderOp.apply, OrderService.assign_worker_to_order, h1] at h
  | startWork u =>
      by_cases h1 : OrderService.can_user_manage_order u o = true
      · by_cases h2 : o.workerId = some u.id
        · by_cases h3 : o.can_be_started = true
          · simp [OrderOp.apply, OrderService.start_order_work,
              Order.start_work, h1, h2, h3] at h
            subst h
            exact timestampsPreserved_save o _ now rfl rfl (by simp)
          · simp [OrderOp.apply, OrderService.start_order_work,
              Order.start_work, h1, h2, h3] at h
            subst h
            exact timestampsPreserved_refl o hinv
        · simp [OrderOp.apply, OrderService.start_order_work, h1, h2] at h
      · simp [OrderOp.apply, OrderService.start_order_work, h1] at h
  | complete u =>
      by_cases h1 : OrderService.can_user_manage_order u o = true
      · by_cases h2 : o.workerId = some u.id
        · by_cases h3 : o.can_be_completed = true
          · simp [OrderOp.apply, OrderService.complete_order,
              Order.complete_order, h1, h2, h3] at h
            subst h
            exact timestampsPreserved_save o _ now rfl rfl (by simp)
          · simp [OrderOp.apply, OrderService.complete_order,
              Order.complete_order, h1, h2, h3] at h
            subst h
            exact timestampsPreserved_refl o hinv
        · simp [OrderOp.apply, OrderService.complete_order, h1, h2] at h
      · simp [OrderOp.apply, OrderService.complete_order, h1] at h
  | cancel u =>
      by_cases h1 : OrderService.can_user_cancel_order u o = true
      · by_cases h2 : o.can_be_canceled = true
        · simp [OrderOp.apply, OrderService.cancel_order,
            Order.cancel_order, h1, h2] at h
          subst h
          exact timestampsPreserved_save o _ now rfl rfl (by simp)
        · simp [OrderOp.apply, OrderService.cancel_order,
            Order.cancel_order, h1, h2] at h
          subst h
          exact timestampsPreserved_refl o hinv
      · simp [OrderOp.apply, OrderService.cancel_order, h1] at h
  | processPayment success =>
      by_cases h1 : o.can_be_paid = true
      · have hpend : o.status = OrderStatus.pending := by
          simpa [Order.can_be_paid] using h1
        cases success with
        | true =>
            simp [OrderOp.apply, PaymentService.process_payment, h1] at h
            subst h
            refine ⟨?_, ?_, ?_, ?_, ?_⟩
            · intro _
              rw [Order.save_stat]
              simp
            · intro _ _
              have hmono := Order.save_paidAt_mono o.status
                { o with status := OrderStatus.paid, paidAt := some now } now now rfl
              simp [hmono]
            · intro t ht
              exact absurd hpend (hinv (by simp [ht]))
            · intro hc _
              rw [Order.save_stat] at hc
              simp at hc
            · intro t ht
              exact Order.save_completedAt_mono _ _ now t ht
        | false =>
            simp [OrderOp.apply, PaymentService.process_payment, h1] at h
            subst h
            exact timestampsPreserved_save o _ now rfl rfl (by simp)
      · simp [OrderOp.apply, PaymentService.process_payment, h1] at h
  | refund u =>
      simp only [OrderOp.apply, PaymentService.refund_payment] at h
      by_cases h2 : o.is_paid = true
      · by_cases hcond : ¬ u.is_admin = true ∧ o.clientId ≠ u.id
        · rw [if_pos hcond] at h
          simp at h
        · rw [if_neg hcond, if_neg (fun hc => hc h2)] at h
          simp only [Except.ok.injEq] at h
          subst h
          exact timestampsPreserved_save o _ now rfl rfl (by simp)
      · split_ifs at h

/-- C5 witness: paying the concrete pending order `oPend` at time 7 yields
`oPendPaid` and the preservation conclusion holds there. -/
theorem C5_timestamps_once_witness :
    paidInvariant oPend ∧
    OrderOp.apply (OrderOp.processPayment true) oPend 7 = Except.ok oPendPaid ∧
    timestampsPreserved oPend oPendPaid :=
  ⟨fun hc => absurd rfl hc, rfl,
    C5_timestamps_once (OrderOp.processPayment true) oPend oPendPaid 7
      (fun hc => absurd rfl hc) rfl⟩

/-- C6 counterexample: `nFailed` is in status Failed, yet a single
`mark_as_read` moves it straight to Read with `read_at` stamped — no
intervening resend resetting it to Pending is required, refuting "Read and
Failed are terminal" and "a record in status Failed never reaches Read via
MarkRead". -/
theorem C6_failed_to_read_counterexample :
    nFailed.status = NotificationStatus.failed ∧
    (nFailed.mark_as_read 5).status = NotificationStatus.read ∧
    (nFailed.mark_as_read 5).readAt = some 5 := by
  decide

/-- C6 as amended: `mark_as_sent`, `mark_as_read` and `mark_as_failed`
unconditionally overwrite the status with Sent, Read and Failed
respectively (stamping `sent_at`/`read_at`), whatever the current status
is; the spec's edges Pending→Sent, Pending→Failed, Sent→Read are special
cases, but so is every other pair, including Failed→Read — Read and Failed
are not terminal under these operations. -/
theorem C6_marks_unconditional (n : Notification) (now : Nat) :
    (n.mark_as_sent now).status = NotificationStatus.sent ∧
    (n.mark_as_sent now).sentAt = some now ∧
    (n.mark_as_sent now).readAt = n.readAt ∧
    (n.mark_as_read now).status = NotificationStatus.read ∧
    (n.mark_as_read now).readAt = some now ∧
    (n.mark_as_read now).sentAt = n.sentAt ∧
    n.mark_as_failed.status = NotificationStatus.failed ∧
    n.mark_as_failed.sentAt = n.sentAt ∧
    n.mark_as_failed.readAt = n.readAt :=
  ⟨rfl, rfl, rfl, rfl, rfl, rfl, rfl, rfl, rfl⟩

/-- C9: a mark-read over the notification channel succeeds only when the
requesting user is the recipient: when no stored notification has the
requested id with the requester as recipient, the handler returns false
and the store — every notification's status and `read_at` included — is
unchanged; conversely a true result implies a stored notification with
that id and the requester as recipient exists. -/
theorem C9_mark_read_recipient_only (notifs : List Notification)
    (userId nid now : Nat) :
    ((∀ n ∈ notifs, ¬ (n.id = nid ∧ n.recipientId = userId)) →
      NotificationConsumer.mark_notification_read notifs userId nid now =
        (false, notifs)) ∧
    (∀ res, NotificationConsumer.mark_notification_read notifs userId nid now =
        (true, res) →
      ∃ n ∈ notifs, n.id = nid ∧ n.recipientId = userId) := by
  constructor
  · intro hnone
    have hf : notifs.find?
        (fun n => decide (n.id = nid) && decide (n.recipientId = userId)) = none := by
      rw [List.find?_eq_none]
      intro x hx
      simpa using hnone x hx
    simp [NotificationConsumer.mark_notification_read, hf]
  · intro res hres
    unfold NotificationConsumer.mark_notification_read at hres
    rcases hf : notifs.find? (fun n => n.id = nid ∧ n.recipientId = userId)
      with _ | n
    · rw [hf] at hres
      simp at hres
    · exact ⟨n, List.mem_of_find?_eq_some hf, by simpa using List.find?_some hf⟩

/-- C9 witness: user 2 asking to mark notification 1 — whose recipient is
user 10 — as read gets false and the store is untouched. -/
theorem C9_mark_read_recipient_only_witness :
    NotificationConsumer.mark_notification_read [nFailed] 2 1 5 =
      (false, [nFailed]) :=
  (C9_mark_read_recipient_only [nFailed] 2 1 5).1 (by decide)

/-- C7 counterexample: the connection of user 1 subscribing to `user_2` —
user 2's personal group, which user 1 is not entitled to join — receives a
`subscribed` response and the registry mutation is performed: the handler
checks only the literal `user_` name pattern, never the identity. -/
theorem C7_subscribe_counterexample :
    BaseWebSocketConsumer.handle_subscribe (some "user_2") =
      (WsResponse.subscribed "user_2", [RegistryOp.add "user_2"]) := by
  decide

/-- A group name starting with `user_` is nonempty. -/
theorem pyStartsWith_user_ne_empty (g : String)
    (h : pyStartsWith g "user_" = true) : g ≠ "" := by
  intro he
  subst he
  revert h
  decide

/-- C7 as amended: subscribe and unsubscribe are gated only by the literal
`user_` name pattern, not by entitlement: any group name starting with
`user_` — another user's personal group included — is added to or removed
from the registry with a success response, while any other (or missing)
group name yields the `Invalid group name` error and no registry
mutation. -/
theorem C7_subscribe_gated_by_pattern_only (g : String) :
    (pyStartsWith g "user_" = true →
      BaseWebSocketConsumer.handle_subscribe (some g) =
        (WsResponse.subscribed g, [RegistryOp.add g]) ∧
      BaseWebSocketConsumer.handle_unsubscribe (some g) =
        (WsResponse.unsubscribed g, [RegistryOp.remove g])) ∧
    (pyStartsWith g "user_" = false →
      BaseWebSocketConsumer.handle_subscribe (some g) =
        (WsResponse.errorMsg "Invalid group name", []) ∧
      BaseWebSocketConsumer.handle_unsubscribe (some g) =
        (WsResponse.errorMsg "Invalid group name", [])) ∧
    BaseWebSocketConsumer.handle_subscribe none =
      (WsResponse.errorMsg "Invalid group name", []) ∧
    BaseWebSocketConsumer.handle_unsubscribe none =
      (WsResponse.errorMsg "Invalid group name", []) := by
  refine ⟨?_, ?_, rfl, rfl⟩
  · intro hp
    have hne := pyStartsWith_user_ne_empty g hp
    constructor <;>
      simp [BaseWebSocketConsumer.handle_subscribe,
        BaseWebSocketConsumer.handle_unsubscribe, hp, hne]
  · intro hp
    constructor <;>
      simp [BaseWebSocketConsumer.handle_subscribe,
        BaseWebSocketConsumer.handle_unsubscribe, hp]

/-- C7 amended witness: `user_1` passes the pattern gate; `orders_admin`
is rejected with no mutation. -/
theorem C7_subscribe_gated_witness :
    (pyStartsWith "user_1" "user_" = true ∧
      BaseWebSocketConsumer.handle_subscribe (some "user_1") =
        (WsResponse.subscribed "user_1", [RegistryOp.add "user_1"])) ∧
    (pyStartsWith "orders_admin" "user_" = false ∧
      BaseWebSocketConsumer.handle_subscribe (some "orders_admin") =
        (WsResponse.errorMsg "Invalid group name", [])) :=
  ⟨⟨by decide,
    ((C7_subscribe_gated_by_pattern_only "user_1").1 (by decide)).1⟩,
   ⟨by decide,
    ((C7_subscribe_gated_by_pattern_only "orders_admin").2.1 (by decide)).1⟩⟩

/-- Every effect `notify_users` produces is a channel-layer send. -/
theorem notify_users_groupSend (ids : List Nat) (ev : String) :
    (WebSocketNotifier.notify_users ids ev).all Effect.isGroupSend = true := by
  simp [WebSocketNotifier.notify_users, WebSocketNotifier.notify_user,
    Effect.isGroupSend]

/-- Every effect `notify_workers_by_gender` produces is a channel-layer
send. -/
theorem notify_workers_groupSend (users : List User) (g : Option Gender)
    (ev : String) :
    (WebSocketNotifier.notify_workers_by_gender users g ev).all
      Effect.isGroupSend = true := by
  simp only [WebSocketNotifier.notify_workers_by_gender]
  split_ifs
  · exact notify_users_groupSend _ _
  · rfl

/-- A trace of channel-layer sends contains no store write. -/
theorem all_groupSend_filter_storeCreate (l : List Effect)
    (h : l.all Effect.isGroupSend = true) :
    l.filter Effect.isStoreCreate = [] := by
  induction l with
  | nil => rfl
  | cons e es ih =>
      simp only [List.all_cons, Bool.and_eq_true] at h
      cases e with
      | groupSend g ev =>
          simp [List.filter_cons, Effect.isStoreCreate, ih h.2]
      | storeCreate r ev => simp [Effect.isGroupSend] at h
      | storeMarkSent i => simp [Effect.isGroupSend] at h

/-- C3 counterexample: for the concrete order-created event on `oPend`
with the single matching worker `uWorker1`, the dispatcher pushes two
envelopes to live channels while persisting nothing: no Pending
NotificationRecord exists before (or after) the delivery attempts, and
nothing is ever marked Sent, refuting "persisted via the NotificationStore
before any delivery attempt". -/
theorem C3_fanout_counterexample :
    WebSocketNotifier.notify_order_created [uWorker1] oPend =
      [Effect.groupSend "user_10" "order_created",
       Effect.groupSend "user_1" "new_order"] ∧
    (WebSocketNotifier.notify_order_created [uWorker1] oPend).filter
      Effect.isStoreCreate = [] := by
  decide

/-- C3 as amended: the fan-out dispatcher persists no NotificationRecord
at all — for the order-created, order-updated and payment-processed events
every effect it produces is a direct channel-layer send (so no record is
created Pending before delivery and none is ever marked Sent); delivery
outcome is not recorded anywhere. -/
theorem C3_fanout_never_persists (users : List User) (o : Order)
    (old_status : OrderStatus) (success : Bool) :
    (WebSocketNotifier.notify_order_created users o).all Effect.isGroupSend
      = true ∧
    (WebSocketNotifier.notify_order_created users o).filter Effect.isStoreCreate
      = [] ∧
    (WebSocketNotifier.notify_order_updated users o old_status).all
      Effect.isGroupSend = true ∧
    (WebSocketNotifier.notify_payment_processed users o success).all
      Effect.isGroupSend = true := by
  have h1 : (WebSocketNotifier.notify_order_created users o).all
      Effect.isGroupSend = true := by
    unfold WebSocketNotifier.notify_order_created
    rw [List.all_append, notify_workers_groupSend]
    rfl
  refine ⟨h1, all_groupSend_filter_storeCreate _ h1, ?_, ?_⟩
  · unfold WebSocketNotifier.notify_order_updated
    split_ifs
    · rw [List.all_append, notify_workers_groupSend]
      rfl
    · rfl
    · rfl
  · cases success <;>
      · simp only [WebSocketNotifier.notify_payment_processed]
        rw [List.all_append, notify_workers_groupSend]
        rfl

end Humo
